import Mathlib

/-!
Verification of the generation-status reconciliation logic, the job-trigger
guard, the structured package save, the character-guide assembly and the
email edge functions of the murder-mystery-party generator repository.

The TypeScript source is shallowly embedded: JSON values stored in the
`generation_status` column are modelled explicitly (absent / non-object /
object), JavaScript truthiness of strings ("" is falsy) is modelled by
`jsTruthy`, and the asynchronous store reads and writes of each operation
are modelled by explicit state passing over record types mirroring the
database rows each function actually reads and writes.
-/

namespace MysteryPackage

/-- JavaScript truthiness of an optional string field: `undefined`/`null`
and the empty string are falsy. -/
def jsTruthy : Option String → Bool
  | some s => s ≠ ""
  | none => false

/-- JavaScript `a || defaultValue` for a string field: a falsy value
(absent or empty) is replaced by the default. -/
def jsOrDefault (o : Option String) (d : String) : String :=
  match o with
  | some s => if s = "" then d else s
  | none => d

/-- JavaScript `x || null` for a string field: a falsy value becomes null. -/
def jsToNullable : Option String → Option String
  | some s => if s = "" then none else some s
  | none => none

/-- JavaScript `a || b || null` for string fields: first truthy value, else null. -/
def jsOr (a b : Option String) : Option String :=
  match jsToNullable a with
  | some s => some s
  | none => jsToNullable b

/-- The per-section completion flags of a `GenerationStatus` object.
Each flag is optional, mirroring the JSON objects the source writes
(`solution` appears only in the initial status written by the trigger). -/
structure Sections where
  hostGuide : Option Bool := none
  characters : Option Bool := none
  clues : Option Bool := none
  inspectorScript : Option Bool := none
  characterMatrix : Option Bool := none
  solution : Option Bool := none
deriving DecidableEq, Repr

/-- The empty sections object `{}`. -/
def Sections.empty : Sections := {}

/-- The sections object written by the auto-correction and
completion-inference paths: the five displayed flags all true. -/
def Sections.allComplete : Sections :=
  { hostGuide := some true, characters := some true, clues := some true
    inspectorScript := some true, characterMatrix := some true }

/-- The sections object of the initial status written by the job trigger:
all six flags false. -/
def Sections.allStarting : Sections :=
  { hostGuide := some false, characters := some false, clues := some false
    inspectorScript := some false, characterMatrix := some false
    solution := some false }

/-- A `generation_status` JSON object as stored in the database; every
field is optional because external writers are not trusted to populate
all of them. -/
structure GenStatusObj where
  status : Option String := none
  progress : Option Nat := none
  currentStep : Option String := none
  resumable : Option Bool := none
  sections : Option Sections := none
  error : Option String := none
deriving DecidableEq, Repr

/-- The stored `generation_status` column value: SQL null / absent,
a non-object JSON value (modelled by its string rendering), or an object. -/
inductive StoredStatus where
  | absent : StoredStatus
  | nonObject (s : String) : StoredStatus
  | obj (o : GenStatusObj) : StoredStatus
deriving DecidableEq, Repr

/-- JavaScript truthiness of the stored `generation_status` value:
null/undefined is falsy, a string is truthy iff non-empty, objects are
always truthy. -/
def StoredStatus.truthy : StoredStatus → Bool
  | .absent => false
  | .nonObject s => s ≠ ""
  | .obj _ => true

/-- Property access `currentStatus.status`: only objects have a
`status` field (property access on a string yields `undefined`). -/
def StoredStatus.statusField : StoredStatus → Option String
  | .obj o => o.status
  | _ => none

/-- Check for `typeof currentStatus` being object (after the truthiness guard):
only the object case reaches the normalization branch. -/
def StoredStatus.isObj : StoredStatus → Bool
  | .obj _ => true
  | _ => false

/-- The normalized `GenerationStatus` record returned to callers
(`status`, `progress`, `currentStep` always present). -/
structure GenerationStatus where
  status : String
  progress : Nat
  currentStep : String
  resumable : Option Bool := none
  sections : Sections := {}
deriving DecidableEq, Repr

/-- The latest `mystery_packages` row for a conversation, as read by the
status service: the status columns plus the joined content-presence
signals (`title`, `host_guide`, character count). -/
structure PackageRow where
  id : Nat
  generation_status : StoredStatus := .absent
  generation_completed_at : Option Nat := none
  generation_started_at : Option Nat := none
  title : Option String := none
  host_guide : Option String := none
  characterCount : Nat := 0
deriving DecidableEq, Repr

/-- Derived `contentComplete = hasContent && hasCharacters` where
`hasContent = !!(data.title && data.host_guide)` and
`hasCharacters` holds when the joined character count is positive. -/
def contentCompleteOf (p : PackageRow) : Bool :=
  (jsTruthy p.title && jsTruthy p.host_guide) && decide (0 < p.characterCount)

/-- The `completedStatus` object literal the reconciler writes back when
auto-correcting a drifted row. -/
def completedStatusObj : GenStatusObj :=
  { status := some "completed", progress := some 100
    currentStep := some "Package generation completed"
    sections := some Sections.allComplete }

/-- Normalization of a stored status object into the returned record:
`status.status` defaulting to not_started, `status.progress` defaulting to 0,
`status.currentStep || 'Unknown step'`, `status.sections || {}`. -/
def normalizeStatus (o : GenStatusObj) : GenerationStatus :=
  { status := jsOrDefault o.status "not_started"
    progress := o.progress.getD 0
    currentStep := jsOrDefault o.currentStep "Unknown step"
    resumable := o.resumable
    sections := o.sections.getD Sections.empty }

/-- The default returned when no package row exists. -/
def notStartedStatus : GenerationStatus :=
  { status := "not_started", progress := 0, currentStep := "Not started" }

/-- The safe fallback returned from the catch block on a store-read failure. -/
def errorFallbackStatus : GenerationStatus :=
  { status := "not_started", progress := 0, currentStep := "Error checking status" }

/-- The status inferred (without a write) from a completion date or
complete content when no valid status object is stored. -/
def inferredCompletedStatus : GenerationStatus :=
  { status := "completed", progress := 100
    currentStep := "Package generation completed"
    sections := Sections.allComplete }

/-- The status inferred from a start date when no valid status object is
stored. -/
def inferredInProgressStatus : GenerationStatus :=
  { status := "in_progress", progress := 50
    currentStep := "Package generation in progress..." }

/-- Result of one reconciliation: the returned status, the (possibly
corrected) stored row, and whether a corrective write was issued. -/
structure ReconcileResult where
  result : GenerationStatus
  row : Option PackageRow
  wrote : Bool
deriving DecidableEq, Repr

/-- The status reconciler `getPackageGenerationStatus`. `readOk = false`
models the catch-all on a store-read failure; `writeOk` models whether the
corrective update succeeds (on failure the stale status is still used);
`now` is the timestamp written into `generation_completed_at`. -/
def getPackageGenerationStatus (readOk : Bool) (row? : Option PackageRow)
    (writeOk : Bool) (now : Nat) : ReconcileResult :=
  if !readOk then
    { result := errorFallbackStatus, row := row?, wrote := false }
  else
    match row? with
    | none => { result := notStartedStatus, row := none, wrote := false }
    | some data =>
      let contentComplete := contentCompleteOf data
      let currentStatus := data.generation_status
      -- auto-correction: content exists but status is not completed
      let corrects := contentComplete && currentStatus.truthy
        && !(currentStatus.statusField == some "completed")
      let currentStatus' :=
        if corrects && writeOk then StoredStatus.obj completedStatusObj
        else currentStatus
      let row' :=
        if corrects && writeOk then
          some { data with generation_status := StoredStatus.obj completedStatusObj
                           generation_completed_at := some now }
        else some data
      if !currentStatus'.truthy || !currentStatus'.isObj then
        -- fallback: infer from completion dates and content
        if data.generation_completed_at.isSome || contentComplete then
          { result := inferredCompletedStatus, row := row', wrote := corrects }
        else if data.generation_started_at.isSome then
          { result := inferredInProgressStatus, row := row', wrote := corrects }
        else
          { result := notStartedStatus, row := row', wrote := corrects }
      else
        match currentStatus' with
        | .obj o => { result := normalizeStatus o, row := row', wrote := corrects }
        | _ => { result := notStartedStatus, row := row', wrote := corrects }

/-! ### Job trigger: `generateCompletePackage` -/

/-- The `conversations` row as read by the job trigger and the page-level
status checker. -/
structure ConversationRow where
  id : String
  needs_package_generation : Bool := false
  has_complete_package : Bool := false
  is_paid : Bool := false
  display_status : Option String := none
deriving DecidableEq, Repr

/-- The store state the job trigger operates on: the latest package row
for the conversation and the conversation row itself. -/
structure TriggerState where
  pkg : Option PackageRow
  conv : Option ConversationRow
deriving DecidableEq, Repr

/-- Return value of the trigger: the resolved string or the thrown error
message. -/
inductive CallResult where
  | ok (value : String) : CallResult
  | err (message : String) : CallResult
deriving DecidableEq, Repr

/-- Outcome of a `generateCompletePackage` run: the returned/thrown value,
the resulting store state, and how many outbound webhook-trigger calls
were made. -/
structure TriggerOutcome where
  ret : CallResult
  state : TriggerState
  webhookCalls : Nat
deriving DecidableEq, Repr

/-- The `initialStatus` literal written before invoking the webhook:
`in_progress`, progress 10, all section flags false. -/
def initialStatusObj : GenStatusObj :=
  { status := some "in_progress", progress := some 10
    currentStep := some "Sending to external generation service..."
    sections := some Sections.allStarting }

/-- The status written when the webhook invocation returns an error. -/
def failedTriggerObj (msg : String) : GenStatusObj :=
  { status := some "failed", progress := some 0
    currentStep := some "Failed to trigger generation"
    resumable := some true, error := some msg }

/-- The status written by the outer catch block (which sees the re-thrown
trigger failure) before the error is propagated to the caller. -/
def failedUnexpectedObj (msg : String) : GenStatusObj :=
  { status := some "failed", progress := some 0
    currentStep := some "Unexpected error during generation"
    resumable := some true, error := some msg }

/-- The status written after the webhook was invoked successfully. -/
def webhookSentObj : GenStatusObj :=
  { status := some "in_progress", progress := some 20
    currentStep := some "Processing by external service..." }

/-- Optional chaining `existingPackage?.generation_status?.status` on
the guard read. -/
def storedStatusOf (pkg? : Option PackageRow) : Option String :=
  match pkg? with
  | some p => p.generation_status.statusField
  | none => none

/-- The guarded job trigger `generateCompletePackage`. `webhookErr` is
the error message of the outbound edge-function call (`none` on success),
`now` the timestamp written to `generation_started_at`/`updated_at`, and
`freshId` the id assigned when a new package row must be created. -/
def generateCompletePackage (s : TriggerState) (webhookErr : Option String)
    (now : Nat) (freshId : Nat) : TriggerOutcome :=
  -- duplicate-generation guard
  if storedStatusOf s.pkg == some "completed" then
    { ret := .ok "already_completed", state := s, webhookCalls := 0 }
  else if storedStatusOf s.pkg == some "in_progress" then
    { ret := .ok "already_in_progress", state := s, webhookCalls := 0 }
  else
    match s.conv with
    | none =>
      -- conversation fetch fails; no packageId yet, so the catch block
      -- performs no failed-status write before re-throwing
      { ret := .err "Package generation failed: Failed to fetch conversation data"
        state := s, webhookCalls := 0 }
    | some _ =>
      -- create or update the package row with the initial status
      let (_pid, pkg₁) :=
        match s.pkg with
        | some p =>
          (p.id, { p with generation_status := StoredStatus.obj initialStatusObj
                          generation_started_at := some now })
        | none =>
          (freshId, { id := freshId
                      generation_status := StoredStatus.obj initialStatusObj
                      generation_started_at := some now : PackageRow })
      -- one outbound call to the mystery-webhook-trigger edge function
      match webhookErr with
      | some msg =>
        -- inner handler writes the failed status and throws; the outer
        -- catch block writes the failed status again and re-throws
        let innerMsg := "Failed to trigger generation: " ++ msg
        let pkg₂ :=
          { pkg₁ with generation_status := StoredStatus.obj (failedTriggerObj msg) }
        let pkg₃ :=
          { pkg₂ with generation_status := StoredStatus.obj (failedUnexpectedObj innerMsg) }
        { ret := .err ("Package generation failed: " ++ innerMsg)
          state := { s with pkg := some pkg₃ }, webhookCalls := 1 }
      | none =>
        let pkg₂ :=
          { pkg₁ with generation_status := StoredStatus.obj webhookSentObj }
        { ret := .ok "Package generation started successfully"
          state := { s with pkg := some pkg₂ }, webhookCalls := 1 }

/-! ### Character-guide assembly: `buildCharacterGuideContent` -/

/-- A `mystery_characters` row as consumed by the package tab view. -/
structure MysteryCharacter where
  character_name : String
  description : Option String := none
  background : Option String := none
  relationships : Option String := none
  rumors : Option String := none
  secret : Option String := none
  introduction : Option String := none
  round2_questions : Option String := none
  round2_innocent : Option String := none
  round2_guilty : Option String := none
  round3_questions : Option String := none
  round3_innocent : Option String := none
  round3_guilty : Option String := none
  round4_questions : Option String := none
  round4_innocent : Option String := none
  round4_guilty : Option String := none
  final_innocent : Option String := none
  final_guilty : Option String := none
deriving DecidableEq, Repr

/-- Regex replacement of `/\\n/g` on the character list: each literal
backslash-n pair becomes a newline, scanning left to right. -/
def replaceEscapedNewlines : List Char → List Char
  | [] => []
  | c :: rest =>
    if c = '\\' then
      match rest with
      | 'n' :: rest' => '\n' :: replaceEscapedNewlines rest'
      | [] => [c]
      | d :: rest' => c :: replaceEscapedNewlines (d :: rest')
    else
      c :: replaceEscapedNewlines rest

/-- Model of `content.replace` with the escaped-newline pattern: convert escaped newlines to actual
newlines for markdown rendering. -/
def jsUnescapeNewlines (s : String) : String :=
  ⟨replaceEscapedNewlines s.data⟩

/-- Append step `content += field + blank line` guarded by the field truthiness. -/
def appendField (acc : String) (f : Option String) : String :=
  if jsTruthy f then acc ++ f.getD "" ++ "\n\n" else acc

/-- Guide assembly `buildCharacterGuideContent`: straight concatenation of the present
fields in the fixed source order, then conversion of escaped newlines. -/
def buildCharacterGuideContent (c : MysteryCharacter) : String :=
  let content := "# " ++ c.character_name ++ " - Character Guide\n\n"
  let content := appendField content c.description
  let content := appendField content c.background
  let content := appendField content c.relationships
  let content := appendField content c.rumors
  let content := appendField content c.secret
  let content := appendField content c.introduction
  let content := appendField content c.round2_questions
  let content := appendField content c.round2_innocent
  let content := appendField content c.round2_guilty
  let content := appendField content c.round3_questions
  let content := appendField content c.round3_innocent
  let content := appendField content c.round3_guilty
  let content := appendField content c.round4_questions
  let content := appendField content c.round4_innocent
  let content := appendField content c.round4_guilty
  let content := appendField content c.final_innocent
  let content := appendField content c.final_guilty
  jsUnescapeNewlines content

/-! ### Content save: `saveStructuredPackageData` -/

/-- A character object of the incoming JSON, modelled as a key/value map
(the source reads dynamically-typed fields with camelCase and snake_case
fallbacks). -/
abbrev CharJson := List (String × String)

/-- Dynamic field read `char.key` on an incoming character object. -/
def jget (c : CharJson) (k : String) : Option String :=
  List.lookup k c

/-- A `mystery_characters` row as written by the content save. -/
structure CharRow where
  package_id : Nat
  character_name : Option String := none
  description : Option String := none
  background : Option String := none
  secret : Option String := none
  introduction : Option String := none
  rumors : Option String := none
  round2_questions : Option String := none
  round2_innocent : Option String := none
  round2_guilty : Option String := none
  round2_accomplice : Option String := none
  round3_questions : Option String := none
  round3_innocent : Option String := none
  round3_guilty : Option String := none
  round3_accomplice : Option String := none
  round4_questions : Option String := none
  round4_innocent : Option String := none
  round4_guilty : Option String := none
  round4_accomplice : Option String := none
  final_innocent : Option String := none
  final_guilty : Option String := none
  final_accomplice : Option String := none
deriving DecidableEq, Repr

/-- The per-character mapping of `charactersToInsert`. -/
def mapCharacterToInsert (pid : Nat) (c : CharJson) : CharRow :=
  { package_id := pid
    character_name := jsOr (jget c "name") (jget c "character_name")
    description := jsToNullable (jget c "description")
    background := jsToNullable (jget c "background")
    secret := jsToNullable (jget c "secret")
    introduction := jsToNullable (jget c "introduction")
    rumors := jsToNullable (jget c "rumors")
    round2_questions := jsOr (jget c "round2Questions") (jget c "round2_questions")
    round2_innocent := jsOr (jget c "round2Innocent") (jget c "round2_innocent")
    round2_guilty := jsOr (jget c "round2Guilty") (jget c "round2_guilty")
    round2_accomplice := jsOr (jget c "round2Accomplice") (jget c "round2_accomplice")
    round3_questions := jsOr (jget c "round3Questions") (jget c "round3_questions")
    round3_innocent := jsOr (jget c "round3Innocent") (jget c "round3_innocent")
    round3_guilty := jsOr (jget c "round3Guilty") (jget c "round3_guilty")
    round3_accomplice := jsOr (jget c "round3Accomplice") (jget c "round3_accomplice")
    round4_questions := jsOr (jget c "round4Questions") (jget c "round4_questions")
    round4_innocent := jsOr (jget c "round4Innocent") (jget c "round4_innocent")
    round4_guilty := jsOr (jget c "round4Guilty") (jget c "round4_guilty")
    round4_accomplice := jsOr (jget c "round4Accomplice") (jget c "round4_accomplice")
    final_innocent := jsOr (jget c "finalInnocent") (jget c "final_innocent")
    final_guilty := jsOr (jget c "finalGuilty") (jget c "final_guilty")
    final_accomplice := jsOr (jget c "finalAccomplice") (jget c "final_accomplice") }

/-- The incoming structured JSON payload, with both camelCase and
snake_case spellings of each aliased field. -/
structure JsonData where
  title : Option String := none
  gameOverview : Option String := none
  game_overview : Option String := none
  hostGuide : Option String := none
  host_guide : Option String := none
  materials : Option String := none
  preparation : Option String := none
  preparation_instructions : Option String := none
  timeline : Option String := none
  hostingTips : Option String := none
  hosting_tips : Option String := none
  evidenceCards : Option String := none
  evidence_cards : Option String := none
  relationshipMatrix : Option String := none
  relationship_matrix : Option String := none
  detectiveScript : Option String := none
  detective_script : Option String := none
  characters : Option (List CharJson) := none
deriving DecidableEq, Repr

/-- A `mystery_packages` row as written by the content save. -/
structure ContentRow where
  id : Nat
  title : Option String := none
  game_overview : Option String := none
  host_guide : Option String := none
  materials : Option String := none
  preparation_instructions : Option String := none
  timeline : Option String := none
  hosting_tips : Option String := none
  evidence_cards : Option String := none
  relationship_matrix : Option String := none
  detective_script : Option String := none
  generation_status : StoredStatus := .absent
  generation_completed_at : Option Nat := none
deriving DecidableEq, Repr

/-- The completed status literal written by the content save (it carries
no sections object). -/
def saveCompletedObj : GenStatusObj :=
  { status := some "completed", progress := some 100
    currentStep := some "Package generation completed" }

/-- The store state the content save operates on: the latest package row,
the character table, and the conversation row. -/
structure SaveState where
  package : Option ContentRow
  characters : List CharRow
  conversation : Option ConversationRow
deriving DecidableEq, Repr

/-- The `normalizedData` field mapping applied to the package row on both
the create and the update path. -/
def contentFieldsOf (j : JsonData) (id : Nat) (now : Nat) : ContentRow :=
  { id := id
    title := j.title
    game_overview := jsOr j.gameOverview j.game_overview
    host_guide := jsOr j.hostGuide j.host_guide
    materials := jsToNullable j.materials
    preparation_instructions := jsOr j.preparation j.preparation_instructions
    timeline := jsToNullable j.timeline
    hosting_tips := jsOr j.hostingTips j.hosting_tips
    evidence_cards := jsOr j.evidenceCards j.evidence_cards
    relationship_matrix := jsOr j.relationshipMatrix j.relationship_matrix
    detective_script := jsOr j.detectiveScript j.detective_script
    generation_status := StoredStatus.obj saveCompletedObj
    generation_completed_at := some now }

/-- Content save `saveStructuredPackageData`: upserts the package content row, replaces
the owned character rows when (and only when) the incoming list is
non-empty, and flips the conversation completion flags. `jsonData? = none`
models the `if (!jsonData) throw` validation. -/
def saveStructuredPackageData (s : SaveState) (jsonData? : Option JsonData)
    (now : Nat) (freshId : Nat) : Except String SaveState :=
  match jsonData? with
  | none => .error "No JSON data provided"
  | some j =>
    let chars := j.characters.getD []
    let (pid, pkg') :=
      match s.package with
      | some p => (p.id, contentFieldsOf j p.id now)
      | none => (freshId, contentFieldsOf j freshId now)
    let characters' :=
      if 0 < chars.length then
        -- delete existing characters of the package, then insert the new ones
        s.characters.filter (fun r => r.package_id ≠ pid)
          ++ chars.map (mapCharacterToInsert pid)
      else
        s.characters
    let conversation' := s.conversation.map (fun c =>
      { c with needs_package_generation := false
               has_complete_package := true
               is_paid := true
               display_status := some "purchased" })
    .ok { package := some pkg', characters := characters'
          conversation := conversation' }

/-! ### Email edge functions -/

/-- The JSON response of an email edge function, together with the HTTP
status code of the `Response`. -/
structure EmailResponse where
  httpStatus : Nat
  success : Option Bool := none
  message : Option String := none
  error : Option String := none
deriving DecidableEq, Repr

/-- Request body of `send-host-email`. -/
structure HostEmailBody where
  host_email : Option String := none
  mystery_title : Option String := none
  access_token : Option String := none
deriving DecidableEq, Repr

/-- Request body of `send-character-email`. -/
structure CharacterEmailBody where
  guest_email : Option String := none
  guest_name : Option String := none
  character_name : Option String := none
  character_details : Option String := none
  access_token : Option String := none
  mystery_title : Option String := none
deriving DecidableEq, Repr

/-- The `send-host-email` edge-function handler. `body` is the JSON-parse
outcome of the request body, `apiKey` the `RESEND_API_KEY` environment
value, and `send1`/`send2` the outcomes of the two provider calls
(`none` = success, `some m` = the thrown error message). Every response,
including every failure, is returned with HTTP status 200. -/
def sendHostEmail (isOptions : Bool) (body : Except String HostEmailBody)
    (apiKey : Option String) (send1 send2 : Option String) : EmailResponse :=
  if isOptions then { httpStatus := 200 }
  else
    match body with
    | .error m => { httpStatus := 200, success := some false, error := some m }
    | .ok _ =>
      match apiKey with
      | none =>
        { httpStatus := 200, success := some false
          error := some "RESEND_API_KEY not configured" }
      | some _ =>
        match send1, send2 with
        | some m, _ => { httpStatus := 200, success := some false, error := some m }
        | none, some m => { httpStatus := 200, success := some false, error := some m }
        | none, none =>
          { httpStatus := 200, success := some true
            message := some "Host emails sent successfully" }

/-- The `send-character-email` edge-function handler; same conventions as
`sendHostEmail` with a single provider call. -/
def sendCharacterEmail (isOptions : Bool) (body : Except String CharacterEmailBody)
    (apiKey : Option String) (send : Option String) : EmailResponse :=
  if isOptions then { httpStatus := 200 }
  else
    match body with
    | .error m => { httpStatus := 200, success := some false, error := some m }
    | .ok _ =>
      match apiKey with
      | none =>
        { httpStatus := 200, success := some false
          error := some "RESEND_API_KEY not configured" }
      | some _ =>
        match send with
        | some m => { httpStatus := 200, success := some false, error := some m }
        | none =>
          { httpStatus := 200, success := some true
            message := some "Email sent successfully" }

/-- A concrete state whose latest package row stores status `in_progress`. -/
def inProgressState : TriggerState :=
  { pkg := some { id := 1, generation_status := .obj { status := some "in_progress" } }
    conv := some { id := "c1" } }

/-- A concrete row whose stored status object carries the unrecognized
value `"bogus"` while a start timestamp is present. -/
def bogusStatusRow : PackageRow :=
  { id := 1, generation_status := .obj { status := some "bogus" }
    generation_started_at := some 7 }

/-- The character rows of a save outcome that belong to package `pid`
(empty when the save failed). -/
def savedCharactersOf (r : Except String SaveState) (pid : Nat) : List CharRow :=
  match r with
  | .ok s => s.characters.filter (fun c => c.package_id == pid)
  | .error _ => []

/-- A concrete save state owning one pre-existing character row. -/
def staleSaveState : SaveState :=
  { package := some { id := 1 }
    characters := [{ package_id := 1, character_name := some "Old" }]
    conversation := some { id := "c1" } }

/-! ## Theorems -/

/-- C2: when the stored status is `completed`, reconcile returns
`completed`, performs no write, and leaves the stored row unchanged:
completion is a one-way ratchet for this component. -/
theorem reconcile_completed_is_ratchet (p : PackageRow) (o : GenStatusObj)
    (w : Bool) (now : Nat)
    (ho : p.generation_status = .obj o) (hs : o.status = some "completed") :
    (getPackageGenerationStatus true (some p) w now).result.status = "completed" ∧
    (getPackageGenerationStatus true (some p) w now).row = some p ∧
    (getPackageGenerationStatus true (some p) w now).wrote = false := by
  simp [getPackageGenerationStatus, ho, hs, StoredStatus.truthy,
    StoredStatus.statusField, StoredStatus.isObj, normalizeStatus, jsOrDefault]

/-- Witness for `reconcile_completed_is_ratchet` at a concrete completed row. -/
theorem reconcile_completed_is_ratchet_witness :
    (getPackageGenerationStatus true
        (some { id := 1, generation_status := .obj { status := some "completed" } })
        true 5).result.status = "completed" ∧
    (getPackageGenerationStatus true
        (some { id := 1, generation_status := .obj { status := some "completed" } })
        true 5).row =
      some { id := 1, generation_status := .obj { status := some "completed" } } ∧
    (getPackageGenerationStatus true
        (some { id := 1, generation_status := .obj { status := some "completed" } })
        true 5).wrote = false :=
  reconcile_completed_is_ratchet
    { id := 1, generation_status := .obj { status := some "completed" } }
    { status := some "completed" } true 5 rfl rfl

/-- C3: when the latest package row stores status `completed`, the job
trigger returns `already_completed`, makes no outbound webhook call, and
leaves every store row (package and conversation) unchanged. -/
theorem trigger_already_completed_no_effects (s : TriggerState) (p : PackageRow)
    (err : Option String) (now fid : Nat)
    (hp : s.pkg = some p)
    (hs : p.generation_status.statusField = some "completed") :
    generateCompletePackage s err now fid =
      { ret := .ok "already_completed", state := s, webhookCalls := 0 } := by
  simp [generateCompletePackage, storedStatusOf, hp, hs]

/-- Witness for `trigger_already_completed_no_effects` at a concrete state. -/
theorem trigger_already_completed_no_effects_witness :
    generateCompletePackage
        { pkg := some { id := 1, generation_status := .obj { status := some "completed" } }
          conv := some { id := "c1" } } none 9 99 =
      { ret := .ok "already_completed"
        state := { pkg := some { id := 1
                                 generation_status := .obj { status := some "completed" } }
                   conv := some { id := "c1" } }
        webhookCalls := 0 } :=
  trigger_already_completed_no_effects
    { pkg := some { id := 1, generation_status := .obj { status := some "completed" } }
      conv := some { id := "c1" } }
    { id := 1, generation_status := .obj { status := some "completed" } }
    none 9 99 rfl rfl

/-- C7: the reconciler read path is total: a store-read failure yields
the safe default (`not_started`, progress 0, generic error step) without
any write, and a conversation with no package row yields
`not_started` with progress 0. -/
theorem reconcile_read_path_total (row? : Option PackageRow) (w : Bool) (now : Nat) :
    getPackageGenerationStatus false row? w now =
      { result := errorFallbackStatus, row := row?, wrote := false } ∧
    getPackageGenerationStatus true none w now =
      { result := notStartedStatus, row := none, wrote := false } ∧
    errorFallbackStatus.status = "not_started" ∧
    errorFallbackStatus.progress = 0 ∧
    notStartedStatus.status = "not_started" ∧
    notStartedStatus.progress = 0 := by
  refine ⟨?_, ?_, rfl, rfl, rfl, rfl⟩ <;> simp [getPackageGenerationStatus]

/-- C10: both email edge functions answer every request with HTTP status
200; failure (malformed body, missing API key, provider error) is
signalled only through `success: false` in the JSON body. -/
theorem emailHandlers_always_http200 (o : Bool) (b : Except String HostEmailBody)
    (k : Option String) (s1 s2 : Option String)
    (b' : Except String CharacterEmailBody) (k' : Option String) (sc : Option String) :
    (sendHostEmail o b k s1 s2).httpStatus = 200 ∧
    (sendCharacterEmail o b' k' sc).httpStatus = 200 ∧
    (sendHostEmail false b k s1 s2).success =
      some (b.toOption.isSome && k.isSome && s1.isNone && s2.isNone) ∧
    (sendCharacterEmail false b' k' sc).success =
      some (b'.toOption.isSome && k'.isSome && sc.isNone) := by
  cases o <;> cases b <;> cases k <;> cases s1 <;> cases s2 <;>
    cases b' <;> cases k' <;> cases sc <;>
      simp [sendHostEmail, sendCharacterEmail, Except.toOption]

/-- C1: on a row with complete content and a recognized stored status
other than `completed`, reconcile returns the corrected completed status
(progress 100, completion step, all section flags true), writes it back,
and a second reconcile on the resulting state returns the identical
output with no further corrective write. -/
theorem reconcile_self_heals_idempotently (p : PackageRow) (o : GenStatusObj)
    (now now' : Nat) (w' : Bool)
    (hcc : contentCompleteOf p = true)
    (ho : p.generation_status = .obj o)
    (hs : o.status = some "not_started" ∨ o.status = some "in_progress" ∨
      o.status = some "failed") :
    (getPackageGenerationStatus true (some p) true now).result =
      { status := "completed", progress := 100
        currentStep := "Package generation completed"
        sections := Sections.allComplete } ∧
    (getPackageGenerationStatus true (some p) true now).wrote = true ∧
    (getPackageGenerationStatus true (some p) true now).row =
      some { p with generation_status := .obj completedStatusObj
                    generation_completed_at := some now } ∧
    (getPackageGenerationStatus true
        (getPackageGenerationStatus true (some p) true now).row w' now').result =
      (getPackageGenerationStatus true (some p) true now).result ∧
    (getPackageGenerationStatus true
        (getPackageGenerationStatus true (some p) true now).row w' now').wrote = false := by
  have hne : ¬(o.status == some "completed") = true := by
    rcases hs with h | h | h <;> simp [h]
  refine ?_
  rcases hs with h | h | h <;>
    simp [getPackageGenerationStatus, contentCompleteOf, ho, h,
      StoredStatus.truthy, StoredStatus.statusField, StoredStatus.isObj,
      normalizeStatus, completedStatusObj, jsOrDefault, Sections.allComplete,
      contentCompleteOf.eq_def, jsTruthy] at hcc ⊢ <;>
    simp [hcc.1.1, hcc.1.2, hcc.2, jsTruthy, hcc]

/-- Witness for `reconcile_self_heals_idempotently` at a concrete drifted
row (stored `in_progress`, content complete). -/
theorem reconcile_self_heals_idempotently_witness :
    contentCompleteOf
      { id := 1
        generation_status := .obj { status := some "in_progress", progress := some 20 }
        title := some "X", host_guide := some "Y", characterCount := 3 } = true ∧
    (getPackageGenerationStatus true
      (some { id := 1
              generation_status := .obj { status := some "in_progress", progress := some 20 }
              title := some "X", host_guide := some "Y", characterCount := 3 })
      true 42).result =
      { status := "completed", progress := 100
        currentStep := "Package generation completed"
        sections := Sections.allComplete } :=
  ⟨by decide,
    (reconcile_self_heals_idempotently
      { id := 1
        generation_status := .obj { status := some "in_progress", progress := some 20 }
        title := some "X", host_guide := some "Y", characterCount := 3 }
      { status := some "in_progress", progress := some 20 }
      42 43 true (by decide) rfl (Or.inr (Or.inl rfl))).1⟩

/-- C4 counterexample: calling the trigger twice on a row whose stored
status is already `in_progress` makes zero outbound webhook calls in
total, not exactly one — both calls short-circuit. -/
theorem trigger_in_progress_twice_counterexample :
    (generateCompletePackage inProgressState none 9 99).webhookCalls +
      (generateCompletePackage
        (generateCompletePackage inProgressState none 9 99).state none 10 100).webhookCalls = 0 ∧
    (generateCompletePackage inProgressState none 9 99).webhookCalls +
      (generateCompletePackage
        (generateCompletePackage inProgressState none 9 99).state none 10 100).webhookCalls ≠ 1 := by
  decide

/-- C4 amended: two successive trigger calls on a row whose stored status
is `in_progress` both short-circuit with the informational result
`already_in_progress`, make zero outbound webhook calls in total, and
leave the store unchanged. -/
theorem trigger_in_progress_twice_no_outbound (s : TriggerState) (p : PackageRow)
    (e1 e2 : Option String) (now now' fid fid' : Nat)
    (hp : s.pkg = some p)
    (hs : p.generation_status.statusField = some "in_progress") :
    (generateCompletePackage s e1 now fid).ret = .ok "already_in_progress" ∧
    (generateCompletePackage s e1 now fid).state = s ∧
    (generateCompletePackage (generateCompletePackage s e1 now fid).state
        e2 now' fid').ret = .ok "already_in_progress" ∧
    (generateCompletePackage s e1 now fid).webhookCalls +
      (generateCompletePackage (generateCompletePackage s e1 now fid).state
        e2 now' fid').webhookCalls = 0 := by
  simp [generateCompletePackage, storedStatusOf, hp, hs]

/-- Witness for `trigger_in_progress_twice_no_outbound` at a concrete state. -/
theorem trigger_in_progress_twice_no_outbound_witness :
    (generateCompletePackage inProgressState none 9 99).ret = .ok "already_in_progress" ∧
    (generateCompletePackage inProgressState none 9 99).state = inProgressState ∧
    (generateCompletePackage (generateCompletePackage inProgressState none 9 99).state
        none 10 100).ret = .ok "already_in_progress" ∧
    (generateCompletePackage inProgressState none 9 99).webhookCalls +
      (generateCompletePackage (generateCompletePackage inProgressState none 9 99).state
        none 10 100).webhookCalls = 0 :=
  trigger_in_progress_twice_no_outbound inProgressState
    { id := 1, generation_status := .obj { status := some "in_progress" } }
    none none 9 10 99 100 rfl rfl

/-- C5: whenever the outbound webhook-trigger call fails, the trigger
writes status `failed` with progress 0 and `resumable: true` to the
package row and then propagates the failure to the caller. -/
theorem trigger_failure_writes_failed_status (s : TriggerState) (c : ConversationRow)
    (msg : String) (now fid : Nat)
    (hc : s.conv = some c)
    (hnc : storedStatusOf s.pkg ≠ some "completed")
    (hni : storedStatusOf s.pkg ≠ some "in_progress") :
    (generateCompletePackage s (some msg) now fid).ret =
      .err ("Package generation failed: " ++ ("Failed to trigger generation: " ++ msg)) ∧
    (∃ p' o, (generateCompletePackage s (some msg) now fid).state.pkg = some p' ∧
      p'.generation_status = .obj o ∧
      o.status = some "failed" ∧ o.progress = some 0 ∧ o.resumable = some true) ∧
    (generateCompletePackage s (some msg) now fid).webhookCalls = 1 := by
  cases hpkg : s.pkg with
  | none =>
    simp [generateCompletePackage, storedStatusOf, hpkg, hc, failedUnexpectedObj]
  | some p =>
    rw [hpkg] at hnc hni
    simp only [storedStatusOf] at hnc hni
    simp [generateCompletePackage, storedStatusOf, hpkg, hc, hnc, hni,
      failedUnexpectedObj]

/-- Witness for `trigger_failure_writes_failed_status` at a concrete state
with no pre-existing package row. -/
theorem trigger_failure_writes_failed_status_witness :
    (generateCompletePackage { pkg := none, conv := some { id := "c2" } }
        (some "boom") 9 99).ret =
      .err ("Package generation failed: " ++ ("Failed to trigger generation: " ++ "boom")) ∧
    (∃ p' o, (generateCompletePackage { pkg := none, conv := some { id := "c2" } }
        (some "boom") 9 99).state.pkg = some p' ∧
      p'.generation_status = .obj o ∧
      o.status = some "failed" ∧ o.progress = some 0 ∧ o.resumable = some true) ∧
    (generateCompletePackage { pkg := none, conv := some { id := "c2" } }
        (some "boom") 9 99).webhookCalls = 1 :=
  trigger_failure_writes_failed_status
    { pkg := none, conv := some { id := "c2" } } { id := "c2" }
    "boom" 9 99 rfl (by decide) (by decide)

/-- C6 counterexample: on a row whose stored status field holds the
unrecognized value `"bogus"` (content incomplete, no completion date,
start date present), the claim predicts the inferred `in_progress` status
with progress 50, but reconcile returns the stored value verbatim with
progress 0 — the fallback only triggers when the whole
`generation_status` value is absent or not an object. -/
theorem reconcile_fallback_counterexample :
    (getPackageGenerationStatus true (some bogusStatusRow) true 0).result.status
      = "bogus" ∧
    (getPackageGenerationStatus true (some bogusStatusRow) true 0).result.progress
      = 0 ∧
    (getPackageGenerationStatus true (some bogusStatusRow) true 0).result ≠
      inferredInProgressStatus := by
  decide

/-- C6 amended: when the stored `generation_status` is absent or not an
object, reconcile infers the status from timestamps and content alone:
completion date present or content complete gives the inferred completed
status; otherwise a start date gives inferred `in_progress` (progress 50,
generic message); otherwise `not_started`. Conversation flags play no
role in the reconciler. -/
theorem reconcile_fallback_inference (p : PackageRow) (w : Bool) (now : Nat)
    (h : p.generation_status.isObj = false) :
    (getPackageGenerationStatus true (some p) w now).result =
      (if p.generation_completed_at.isSome || contentCompleteOf p then
        inferredCompletedStatus
      else if p.generation_started_at.isSome then inferredInProgressStatus
      else notStartedStatus) := by
  cases hgs : p.generation_status with
  | obj o => rw [hgs] at h; simp [StoredStatus.isObj] at h
  | absent =>
    cases hca : p.generation_completed_at <;>
      cases hsa : p.generation_started_at <;>
        by_cases hcc : contentCompleteOf p = true <;>
          simp [getPackageGenerationStatus, hgs, hca, hsa, hcc,
            StoredStatus.truthy, StoredStatus.statusField, StoredStatus.isObj]
  | nonObject str =>
    cases hca : p.generation_completed_at <;>
      cases hsa : p.generation_started_at <;>
        by_cases hcc : contentCompleteOf p = true <;>
          by_cases hstr : str = "" <;> cases w <;>
            simp [getPackageGenerationStatus, hgs, hca, hsa, hcc, hstr,
              StoredStatus.truthy, StoredStatus.statusField, StoredStatus.isObj,
              normalizeStatus, completedStatusObj, jsOrDefault,
              inferredCompletedStatus, Sections.allComplete]

/-- Witness for `reconcile_fallback_inference` at a concrete row with an
absent status object and only a start date. -/
theorem reconcile_fallback_inference_witness :
    (getPackageGenerationStatus true
        (some { id := 1, generation_started_at := some 7 }) true 0).result =
      inferredInProgressStatus :=
  by
    have h := reconcile_fallback_inference
      { id := 1, generation_started_at := some 7 } true 0 (by decide)
    simpa using h

/-- Helper: the escaped-newline replacement leaves a backslash-free
character list unchanged. -/
theorem replaceEscapedNewlines_eq_self (l : List Char) (h : '\x5c' ∉ l) :
    replaceEscapedNewlines l = l := by
  induction l with
  | nil => rfl
  | cons c rest ih =>
    have hc : c ≠ '\x5c' := fun he => h (he ▸ List.mem_cons_self c rest)
    have h' : ('\x5c' : Char) ∉ rest := fun hm => h (List.mem_cons_of_mem c hm)
    rw [replaceEscapedNewlines.eq_def]
    simp only []
    rw [if_neg hc, ih h']

/-- Helper: `jsUnescapeNewlines` leaves a backslash-free string unchanged. -/
theorem jsUnescapeNewlines_eq_self (s : String) (h : '\x5c' ∉ s.data) :
    jsUnescapeNewlines s = s := by
  simp [jsUnescapeNewlines, replaceEscapedNewlines_eq_self s.data h]

/-- C8: for a character whose only populated optional fields are
`description = "D"`, `background = "B"`, `secret = "S"`, the assembled
guide is exactly the header followed by "D", "B", "S" in that order,
each separated by a blank line, with no text for any absent field. -/
theorem characterGuide_order_preserving (name : String) (h : '\x5c' ∉ name.data) :
    buildCharacterGuideContent
        { character_name := name, description := some "D"
          background := some "B", secret := some "S" } =
      "# " ++ name ++ " - Character Guide\n\nD\n\nB\n\nS\n\n" := by
  simp only [buildCharacterGuideContent, appendField, jsTruthy]
  norm_num
  rw [jsUnescapeNewlines_eq_self]
  · apply String.ext
    simp [String.data_append]
  · simp [String.data_append, List.mem_append]
    exact h

/-- Witness for `characterGuide_order_preserving` at a concrete name. -/
theorem characterGuide_order_preserving_witness :
    buildCharacterGuideContent
        { character_name := "Alice", description := some "D"
          background := some "B", secret := some "S" } =
      "# " ++ "Alice" ++ " - Character Guide\n\nD\n\nB\n\nS\n\n" :=
  characterGuide_order_preserving "Alice" (by decide)

/-- C9 counterexample: saving a payload whose character list is empty
leaves the pre-existing character row in place, so the package character
set does not equal the (empty) supplied set. -/
theorem save_empty_list_keeps_rows_counterexample :
    savedCharactersOf
        (saveStructuredPackageData staleSaveState (some { title := some "T" }) 3 50) 1 =
      [{ package_id := 1, character_name := some "Old" }] ∧
    (({ title := some "T" : JsonData }).characters.getD []).map (mapCharacterToInsert 1)
      = [] ∧
    [({ package_id := 1, character_name := some "Old" } : CharRow)] ≠ [] := by
  decide

/-- Helper: the inserted character rows carry the package id they were
mapped with. -/
@[simp] theorem mapCharacterToInsert_package_id (pid : Nat) (c : CharJson) :
    (mapCharacterToInsert pid c).package_id = pid := rfl

/-- C9 amended: a successful save replaces the character set of the package
with exactly the mapped input characters whenever the supplied list is
non-empty; when the supplied list is empty, the pre-existing character
rows are left untouched. -/
theorem save_characters_full_replacement (s : SaveState) (p : ContentRow)
    (j : JsonData) (now fid : Nat) (hp : s.package = some p) :
    savedCharactersOf (saveStructuredPackageData s (some j) now fid) p.id =
      (if 0 < (j.characters.getD []).length then
        (j.characters.getD []).map (mapCharacterToInsert p.id)
      else s.characters.filter (fun c => c.package_id == p.id)) := by
  by_cases hne : 0 < (j.characters.getD []).length
  · have h1 : ∀ a : CharRow,
        (a.package_id == p.id && !decide (a.package_id = p.id)) = false := by
      intro a; by_cases hx : a.package_id = p.id <;> simp [hx]
    have h2 : ((fun c : CharRow => c.package_id == p.id) ∘ mapCharacterToInsert p.id)
        = fun _ => true := by
      funext c; simp
    simp [saveStructuredPackageData, hp, hne, savedCharactersOf,
      List.filter_append, List.filter_filter, h1, List.filter_map, h2]
  · simp [saveStructuredPackageData, hp, hne, savedCharactersOf]

/-- Witness for `save_characters_full_replacement`: a non-empty incoming
list fully replaces the stale row. -/
theorem save_characters_full_replacement_witness :
    savedCharactersOf
        (saveStructuredPackageData staleSaveState
          (some { title := some "T", characters := some [[("name", "New")]] }) 3 50) 1 =
      [[("name", "New")]].map (mapCharacterToInsert 1) :=
  save_characters_full_replacement staleSaveState { id := 1 }
    { title := some "T", characters := some [[("name", "New")]] } 3 50 rfl

end MysteryPackage
